import Mathlib

/-!
Verification of the Family Wellness web app (src/GITPUSH/web_app.py).

Shallow embedding: Python text is modelled as a list of characters,
the Streamlit per-session state as an explicit structure, and the two
network operations (the credential probe and the chat call) as oracles
passed to the handlers, which also return the list of requests they
actually sent, so that "the provider is never called" is the trace
being empty.
-/

namespace FamilyWellness

/-- Text, as the Python source manipulates it: a sequence of characters. -/
abbrev Str := List Char

/-- A Lean string literal as text (used to transcribe the Python literals). -/
def str (s : String) : Str := s.data

/-- Python str.lower on the texts involved here: each character lowercased. -/
def lowerStr (s : Str) : Str := s.map Char.toLower

/-- Python startswith: `kw` is a prefix of the second argument. -/
def hasPre : Str → Str → Bool
  | [], _ => true
  | _ :: _, [] => false
  | a :: as, b :: bs => a == b && hasPre as bs

/-- Python `in` on strings: `kw` occurs contiguously in the second argument. -/
def hasSub (kw : Str) : Str → Bool
  | [] => hasPre kw []
  | c :: rest => hasPre kw (c :: rest) || hasSub kw rest

/-- The specification's notion of substring containment: `kw` occurs
contiguously inside `s`. -/
def ContainsSub (kw s : Str) : Prop := ∃ pre post, s = pre ++ kw ++ post

theorem hasPre_iff (kw s : Str) : hasPre kw s = true ↔ ∃ post, s = kw ++ post := by
  induction kw generalizing s with
  | nil => simp [hasPre]
  | cons a as ih =>
    cases s with
    | nil => simp [hasPre]
    | cons b bs =>
      simp only [hasPre, Bool.and_eq_true, beq_iff_eq, ih, List.cons_append,
        List.cons.injEq]
      constructor
      · rintro ⟨rfl, post, rfl⟩
        exact ⟨post, rfl, rfl⟩
      · rintro ⟨post, rfl, rfl⟩
        exact ⟨rfl, post, rfl⟩

theorem hasSub_iff (kw s : Str) : hasSub kw s = true ↔ ContainsSub kw s := by
  induction s with
  | nil =>
    simp only [hasSub, hasPre_iff, ContainsSub]
    constructor
    · rintro ⟨post, h⟩
      exact ⟨[], post, by simpa using h⟩
    · rintro ⟨pre, post, h⟩
      obtain ⟨rfl, rfl, rfl⟩ : pre = [] ∧ kw = [] ∧ post = [] := by simpa using h.symm
      exact ⟨[], rfl⟩
  | cons c rest ih =>
    simp only [hasSub, Bool.or_eq_true, hasPre_iff, ih, ContainsSub]
    constructor
    · rintro (⟨post, h⟩ | ⟨pre, post, h⟩)
      · exact ⟨[], post, by simpa using h⟩
      · exact ⟨c :: pre, post, by simp [h]⟩
    · rintro ⟨pre, post, h⟩
      cases pre with
      | nil => exact Or.inl ⟨post, by simpa using h⟩
      | cons p ps =>
        simp only [List.cons_append, List.cons.injEq] at h
        exact Or.inr ⟨ps, post, h.2⟩

/-- The fixed crisis keyword list of check_crisis_keywords (web_app.py line 112). -/
def crisis_keywords : List Str :=
  [str "suicide", str "kill myself", str "end it all",
   str "hurt myself", str "die", str "worthless"]

/-- check_crisis_keywords (web_app.py lines 110-113): any keyword occurring
in the lowercased message. -/
def check_crisis_keywords (message : Str) : Bool :=
  crisis_keywords.any (fun keyword => hasSub keyword (lowerStr message))

/-- C1: check_crisis_keywords returns true exactly when the lowercased input
contains one of the six fixed phrases as a contiguous substring; so it is
true for every input containing one of them case-insensitively and false
for every input containing none. -/
theorem check_crisis_keywords_iff (message : Str) :
    check_crisis_keywords message = true ↔
      ∃ kw ∈ ([str "suicide", str "kill myself", str "end it all",
               str "hurt myself", str "die", str "worthless"] : List Str),
        ContainsSub kw (lowerStr message) := by
  simp only [check_crisis_keywords, List.any_eq_true, hasSub_iff]
  rfl

/-- get_crisis_response (web_app.py lines 115-125): the fixed hotline message. -/
def get_crisis_response : Str :=
  str "🚨 I'm concerned about what you've shared. Your feelings are valid, but help is available.\n\n**Please reach out immediately:**\n- **India - Suicide Prevention**: 104 (24/7)\n- **KIRAN Mental Health**: 1800-599-0019\n- **Vandrevala Foundation**: 9999666555\n- **iCall Psychosocial Helpline**: 9152987821\n\nYou don't have to face this alone. Would you like to talk about what's making you feel this way?"

/-- The closed set of persona identifiers (the keys of PERSONALITIES). -/
inductive PKey where
  | sage
  | nurture
  | spark
  | bridge
deriving DecidableEq

/-- One entry of the PERSONALITIES table (web_app.py lines 20-65). -/
structure Persona where
  name : Str
  role : Str
  description : Str
  prompt : Str

/-- The PERSONALITIES table (web_app.py lines 20-65), transcribed verbatim. -/
def PERSONALITIES : PKey → Persona
  | PKey.sage =>
    { name := str "🧠 Sage"
      role := str "Youth Mental Health Counselor"
      description := str "For teenagers and young adults (mental health, academics)"
      prompt := str "You are Sage, a supportive AI counselor for Indian youth aged 13-25. You understand academic pressure, family expectations, and cultural challenges. Always:\n- Provide empathetic, non-judgmental support\n- Recognize signs of serious mental health concerns\n- Offer practical coping strategies rooted in Indian context\n- Bridge communication gaps between youth and families\n- Use encouraging, culturally sensitive language" }
  | PKey.nurture =>
    { name := str "🤱 Nurture"
      role := str "Parenting Guide"
      description := str "For parents and guardians (parenting strategies)"
      prompt := str "You are Nurture, an experienced parenting guide for Indian families. You understand diverse family structures, cultural values, and developmental science. Always:\n- Provide evidence-based parenting strategies\n- Respect cultural traditions while promoting healthy development\n- Adapt advice for different socioeconomic contexts\n- Support parents' mental health and well-being\n- Offer practical, actionable guidance" }
  | PKey.spark =>
    { name := str "✨ Spark"
      role := str "Child Development Specialist"
      description := str "For child development activities and learning"
      prompt := str "You are Spark, a child development specialist creating engaging, age-appropriate activities. You understand Indian cultural contexts and diverse learning needs. Always:\n- Design inclusive activities for all abilities\n- Incorporate cultural elements and local resources\n- Provide clear, step-by-step instructions\n- Suggest modifications for special needs\n- Make learning fun and engaging" }
  | PKey.bridge =>
    { name := str "🌉 Bridge"
      role := str "Family Communication Mediator"
      description := str "For family communication and conflict resolution"
      prompt := str "You are Bridge, a family communication specialist helping resolve conflicts and improve understanding. Always:\n- Remain neutral and understanding\n- Suggest practical communication strategies\n- Help different generations understand each other\n- Provide conflict resolution techniques\n- Support healthy family dynamics" }

/-- One entry of st.session_state.messages: a chat turn. -/
structure ChatMessage where
  role : Str
  content : Str
deriving DecidableEq

/-- One entry of a genai chat history: a role and its text parts. -/
structure GMessage where
  role : Str
  parts : Str
deriving DecidableEq

/-- The genai ChatSession held in st.session_state.chat_session: its
accumulated message history. -/
structure ChatSession where
  history : List GMessage
deriving DecidableEq

/-- The genai GenerativeModel handle stored on successful validation; opaque
to the app, carrying the credential it was configured with. -/
structure Model where
  api_key : Str
deriving DecidableEq

/-- The per-session Streamlit state (web_app.py lines 67-77). -/
structure SessionState where
  messages : List ChatMessage
  personality : PKey
  chat_session : Option ChatSession
  api_key_valid : Bool
  model : Option Model
deriving DecidableEq

/-- The initial session state (web_app.py lines 67-77). -/
def initialState : SessionState :=
  { messages := []
    personality := PKey.sage
    chat_session := none
    api_key_valid := false
    model := none }

/-- validate_api_key (web_app.py lines 79-88). The probe oracle stands for
configure + GenerativeModel + generate_content with the given key and the
fixed prompt, returning the reply text or raising with str(e); the second
component records the probe calls made (key, prompt). -/
def validate_api_key (api_key : Str) (probe : Str → Str → Except Str Str) :
    Except Str Model × List (Str × Str) :=
  match probe api_key (str "Hello") with
  | Except.ok _ => (Except.ok ⟨api_key⟩, [(api_key, str "Hello")])
  | Except.error e => (Except.error e, [(api_key, str "Hello")])

/-- The Validate and Start button handler (web_app.py lines 156-167): on a
valid key, unlock and store the model; on failure, show the error and leave
the state as it was. -/
def validateAndStart (st : SessionState) (api_key : Str)
    (probe : Str → Str → Except Str Str) : SessionState × List (Str × Str) :=
  match validate_api_key api_key probe with
  | (Except.ok m, calls) => ({ st with api_key_valid := true, model := some m }, calls)
  | (Except.error _, calls) => (st, calls)

/-- The greeting text used both in the seeded history (line 104) and as the
first assistant message (line 276). -/
def greeting (p : Persona) : Str :=
  str "Hello! I'm " ++ p.name ++ str ", your " ++ p.role ++
    str ". How can I support you today?"

/-- The two-message history that initialize_chat_session seeds (lines 96-107):
a fixed user turn and a model turn carrying the persona's system prompt. -/
def seedHistory (p : Persona) : List GMessage :=
  [ { role := str "user"
      parts := str "Hello, I need help with family wellness and development." },
    { role := str "model"
      parts := p.prompt ++ str "\n\n" ++ greeting p } ]

/-- initialize_chat_session (web_app.py lines 90-108), here named
init_chat_session: start a chat with the seeded history when a model is
stored; report failure when none is. -/
def init_chat_session (st : SessionState) (personality_key : PKey) :
    SessionState × Bool :=
  match st.model with
  | none => (st, false)
  | some _ =>
    ({ st with chat_session := some ⟨seedHistory (PERSONALITIES personality_key)⟩ },
      true)

/-- The greeting-synthesis step of a render (web_app.py lines 272-277): when
no chat session exists, initialize one and append the greeting on success. -/
def renderChat (st : SessionState) : SessionState :=
  match st.chat_session with
  | some _ => st
  | none =>
    let r := init_chat_session st st.personality
    if r.2 then
      { r.1 with
          messages := r.1.messages ++
            [⟨str "assistant", greeting (PERSONALITIES st.personality)⟩] }
    else r.1

/-- The personality button handler (web_app.py lines 193-203): switching to a
different persona clears the log and discards the chat session; clicking the
active one does nothing. -/
def selectPersonality (st : SessionState) (key : PKey) : SessionState :=
  if key ≠ st.personality then
    { st with personality := key, messages := [], chat_session := none }
  else st

/-- The recommendation cascade (web_app.py lines 217-224). -/
def recommend (age_group concern : Str) : PKey :=
  if age_group ∈ [str "13-17", str "18-25"] ∧
      concern ∈ [str "Mental health", str "Academic stress"] then PKey.sage
  else if age_group = str "Parent/Guardian" ∧
      concern ∈ [str "Parenting", str "Child development"] then PKey.nurture
  else if concern = str "Child development" then PKey.spark
  else PKey.bridge

/-- The Get Recommendation handler (web_app.py lines 216-231). The mood
slider value is in scope for the handler but never read by it; switching to
the recommended persona clears the log and chat session, and a
recommendation equal to the active persona changes nothing. -/
def getRecommendation (st : SessionState) (age_group concern : Str)
    (mood : Nat) : SessionState :=
  let rec_personality := recommend age_group concern
  if rec_personality ≠ st.personality then
    { st with personality := rec_personality, messages := [], chat_session := none }
  else st

/-- The Clear Chat button handler (web_app.py lines 251-254). -/
def clearChat (st : SessionState) : SessionState :=
  { st with messages := [], chat_session := none }

/-- The Change API Key button handler (web_app.py lines 257-262). -/
def changeApiKey (st : SessionState) : SessionState :=
  { st with api_key_valid := false, model := none, messages := [], chat_session := none }

/-- The age-group options of the assessment form (web_app.py lines 209-210). -/
def ageOptions : List Str :=
  [str "13-17", str "18-25", str "Parent/Guardian", str "Other"]

/-- The concern options of the assessment form (web_app.py lines 211-213). -/
def concernOptions : List Str :=
  [str "Mental health", str "Academic stress", str "Parenting",
   str "Child development", str "Family communication"]

/-- The per-turn wrapped message (web_app.py lines 303-305): role framing,
then the raw user text, then the persona's system prompt after Remember. -/
def context_prompt (p : Persona) (prompt : Str) : Str :=
  str "As " ++ p.name ++ str ", a " ++ p.role ++ str ", respond to: " ++ prompt ++
    str "\n                    \n                    Remember: " ++ p.prompt

/-- The apology text substituted when the chat call raises (line 310). -/
def apology (e : Str) : Str :=
  str "I apologize, but I encountered an error: " ++ e ++ str ". Please try again."

/-- The message of the AttributeError Python raises when send_message is
looked up on a None chat_session. -/
def none_attr_error : Str :=
  str "'NoneType' object has no attribute 'send_message'"

/-- The chat-input handler (web_app.py lines 289-317). The provider oracle
stands for ChatSession.send_message's network call: it receives the full
request (the session history followed by the new wrapped user message) and
returns the reply text or raises; the second component lists the requests
actually sent. On success genai appends the exchange to the session history;
a raised call leaves the history as it was. -/
def handleChat (st : SessionState) (prompt : Str)
    (provider : List GMessage → Except Str Str) :
    SessionState × List (List GMessage) :=
  let stU : SessionState := { st with messages := st.messages ++ [⟨str "user", prompt⟩] }
  if check_crisis_keywords prompt then
    ({ stU with messages := stU.messages ++ [⟨str "assistant", get_crisis_response⟩] }, [])
  else
    match st.chat_session with
    | none =>
      ({ stU with
          messages := stU.messages ++ [⟨str "assistant", apology none_attr_error⟩] }, [])
    | some cs =>
      let req := cs.history ++
        [⟨str "user", context_prompt (PERSONALITIES st.personality) prompt⟩]
      match provider req with
      | Except.ok t =>
        ({ stU with
            messages := stU.messages ++ [⟨str "assistant", t⟩],
            chat_session := some ⟨req ++ [⟨str "model", t⟩]⟩ }, [req])
      | Except.error e =>
        ({ stU with messages := stU.messages ++ [⟨str "assistant", apology e⟩] }, [req])

/-- C2: for every user message the crisis filter flags, the chat handler
sends no request to the provider (empty call trace) and appends the static
crisis-hotline message as the assistant turn after the user's turn. -/
theorem flagged_message_skips_provider (st : SessionState) (prompt : Str)
    (provider : List GMessage → Except Str Str)
    (h : check_crisis_keywords prompt = true) :
    (handleChat st prompt provider).2 = [] ∧
    (handleChat st prompt provider).1.messages =
      st.messages ++ [⟨str "user", prompt⟩, ⟨str "assistant", get_crisis_response⟩] := by
  simp [handleChat, h]

theorem flagged_message_skips_provider_witness :
    (handleChat initialState (str "I feel WORTHLESS") (fun _ => Except.error (str "x"))).2
      = [] ∧
    (handleChat initialState (str "I feel WORTHLESS") (fun _ => Except.error (str "x"))).1.messages
      = initialState.messages ++
        [⟨str "user", str "I feel WORTHLESS"⟩, ⟨str "assistant", get_crisis_response⟩] :=
  flagged_message_skips_provider initialState (str "I feel WORTHLESS")
    (fun _ => Except.error (str "x")) (by decide)

/-- The recommendation decision table as the specification states it: first
matching row wins; sage for young age groups with mental-health or academic
concerns, nurture for guardians with parenting or development concerns,
spark for remaining child-development concerns, bridge otherwise. -/
def recommendSpec (age_group concern : Str) : PKey :=
  if (age_group = str "13-17" ∨ age_group = str "18-25") ∧
      (concern = str "Mental health" ∨ concern = str "Academic stress") then PKey.sage
  else if age_group = str "Parent/Guardian" ∧
      (concern = str "Parenting" ∨ concern = str "Child development") then PKey.nurture
  else if concern = str "Child development" then PKey.spark
  else PKey.bridge

/-- C3: on the closed form option sets, the code's recommendation cascade
agrees with the spec's decision table, and the four quoted instances hold. -/
theorem recommend_matches_table (age_group concern : Str)
    (ha : age_group ∈ ageOptions) (hc : concern ∈ concernOptions) :
    recommend age_group concern = recommendSpec age_group concern ∧
    recommend (str "13-17") (str "Mental health") = PKey.sage ∧
    recommend (str "Parent/Guardian") (str "Parenting") = PKey.nurture ∧
    recommend (str "Other") (str "Child development") = PKey.spark ∧
    recommend (str "Other") (str "Family communication") = PKey.bridge := by
  refine ⟨?_, by decide, by decide, by decide, by decide⟩
  have h : ∀ x ∈ ageOptions, ∀ y ∈ concernOptions,
      recommend x y = recommendSpec x y := by decide
  exact h age_group ha concern hc

theorem recommend_matches_table_witness :
    recommend (str "13-17") (str "Mental health")
        = recommendSpec (str "13-17") (str "Mental health") ∧
    recommend (str "13-17") (str "Mental health") = PKey.sage ∧
    recommend (str "Parent/Guardian") (str "Parenting") = PKey.nurture ∧
    recommend (str "Other") (str "Child development") = PKey.spark ∧
    recommend (str "Other") (str "Family communication") = PKey.bridge :=
  recommend_matches_table (str "13-17") (str "Mental health") (by decide) (by decide)

/-- C9: selecting the persona that is already active, by button or through a
recommendation resolving to it, leaves the whole session state unchanged. -/
theorem reselect_active_noop (st : SessionState) (age_group concern : Str)
    (mood : Nat) (h : recommend age_group concern = st.personality) :
    selectPersonality st st.personality = st ∧
    getRecommendation st age_group concern mood = st := by
  constructor
  · simp [selectPersonality]
  · simp [getRecommendation, h]

theorem reselect_active_noop_witness :
    selectPersonality initialState initialState.personality = initialState ∧
    getRecommendation initialState (str "13-17") (str "Mental health") 5 = initialState :=
  reselect_active_noop initialState (str "13-17") (str "Mental health") 5 (by decide)

/-- C10: the recommendation handler's result does not depend on the mood
slider: any two mood values in 1..10 give the same outcome for the same
age group and concern. -/
theorem recommendation_ignores_mood (st : SessionState) (age_group concern : Str)
    (m1 m2 : Nat) (h1 : 1 ≤ m1 ∧ m1 ≤ 10) (h2 : 1 ≤ m2 ∧ m2 ≤ 10) :
    getRecommendation st age_group concern m1 =
      getRecommendation st age_group concern m2 := rfl

theorem recommendation_ignores_mood_witness :
    getRecommendation initialState (str "Other") (str "Parenting") 1 =
      getRecommendation initialState (str "Other") (str "Parenting") 10 :=
  recommendation_ignores_mood initialState (str "Other") (str "Parenting") 1 10
    (by decide) (by decide)

/-- C4: when the chat call raises on a normal (non-flagged) turn, exactly one
assistant message is appended after the user's own turn, it carries the
apology marker, and every other part of the session state is untouched. -/
theorem provider_error_apology (st : SessionState) (prompt e : Str)
    (cs : ChatSession) (provider : List GMessage → Except Str Str)
    (hflag : check_crisis_keywords prompt = false)
    (hcs : st.chat_session = some cs)
    (herr : provider (cs.history ++
      [⟨str "user", context_prompt (PERSONALITIES st.personality) prompt⟩]) =
        Except.error e) :
    (handleChat st prompt provider).1.messages =
      st.messages ++ [⟨str "user", prompt⟩, ⟨str "assistant", apology e⟩] ∧
    ContainsSub (str "I apologize") (apology e) ∧
    (handleChat st prompt provider).1.personality = st.personality ∧
    (handleChat st prompt provider).1.chat_session = st.chat_session ∧
    (handleChat st prompt provider).1.api_key_valid = st.api_key_valid ∧
    (handleChat st prompt provider).1.model = st.model := by
  have hsplit : str "I apologize, but I encountered an error: " =
      str "I apologize" ++ str ", but I encountered an error: " := by decide
  refine ⟨?_, ?_, ?_, ?_, ?_, ?_⟩ <;>
    simp [handleChat, hflag, hcs, herr, apology, ContainsSub] <;>
    exact ⟨[], str ", but I encountered an error: " ++ e ++ str ". Please try again.",
      by rw [hsplit]; simp⟩

theorem provider_error_apology_witness :
    (handleChat
      { initialState with
          api_key_valid := true, model := some ⟨str "k"⟩,
          chat_session := some ⟨seedHistory (PERSONALITIES PKey.sage)⟩ }
      (str "hi") (fun _ => Except.error (str "boom"))).1.messages =
      ({ initialState with
          api_key_valid := true, model := some ⟨str "k"⟩,
          chat_session := some ⟨seedHistory (PERSONALITIES PKey.sage)⟩ }
          : SessionState).messages ++
        [⟨str "user", str "hi"⟩, ⟨str "assistant", apology (str "boom")⟩] ∧
    ContainsSub (str "I apologize") (apology (str "boom")) ∧
    (handleChat
      { initialState with
          api_key_valid := true, model := some ⟨str "k"⟩,
          chat_session := some ⟨seedHistory (PERSONALITIES PKey.sage)⟩ }
      (str "hi") (fun _ => Except.error (str "boom"))).1.personality = PKey.sage ∧
    (handleChat
      { initialState with
          api_key_valid := true, model := some ⟨str "k"⟩,
          chat_session := some ⟨seedHistory (PERSONALITIES PKey.sage)⟩ }
      (str "hi") (fun _ => Except.error (str "boom"))).1.chat_session =
        some ⟨seedHistory (PERSONALITIES PKey.sage)⟩ ∧
    (handleChat
      { initialState with
          api_key_valid := true, model := some ⟨str "k"⟩,
          chat_session := some ⟨seedHistory (PERSONALITIES PKey.sage)⟩ }
      (str "hi") (fun _ => Except.error (str "boom"))).1.api_key_valid = true ∧
    (handleChat
      { initialState with
          api_key_valid := true, model := some ⟨str "k"⟩,
          chat_session := some ⟨seedHistory (PERSONALITIES PKey.sage)⟩ }
      (str "hi") (fun _ => Except.error (str "boom"))).1.model = some ⟨str "k"⟩ :=
  provider_error_apology
    { initialState with
        api_key_valid := true, model := some ⟨str "k"⟩,
        chat_session := some ⟨seedHistory (PERSONALITIES PKey.sage)⟩ }
    (str "hi") (str "boom") ⟨seedHistory (PERSONALITIES PKey.sage)⟩
    (fun _ => Except.error (str "boom")) (by decide) rfl rfl

/-- C5: validation makes exactly one probe call and looks at the credential
only through that call: a successful probe stores a model handle and sets
api_key_valid, a failed probe surfaces the provider's rejection reason and
leaves the session locked with no handle, and any credential whose probe
gives the same answer gets the same validity outcome. -/
theorem validate_probe_once (st : SessionState) (api_key : Str)
    (probe : Str → Str → Except Str Str)
    (hlock : st.api_key_valid = false) (hmod : st.model = none) :
    (validateAndStart st api_key probe).2 = [(api_key, str "Hello")] ∧
    (∀ r, probe api_key (str "Hello") = Except.ok r →
      (validateAndStart st api_key probe).1.model ≠ none ∧
      (validateAndStart st api_key probe).1.api_key_valid = true) ∧
    (∀ e, probe api_key (str "Hello") = Except.error e →
      (validate_api_key api_key probe).1 = Except.error e ∧
      (validateAndStart st api_key probe).1.api_key_valid = false ∧
      (validateAndStart st api_key probe).1.model = none) ∧
    (∀ (k2 : Str) (probe2 : Str → Str → Except Str Str),
      probe2 k2 (str "Hello") = probe api_key (str "Hello") →
      (validateAndStart st k2 probe2).1.api_key_valid =
        (validateAndStart st api_key probe).1.api_key_valid) := by
  cases hp : probe api_key (str "Hello") with
  | ok r =>
    refine ⟨by simp [validateAndStart, validate_api_key, hp], ?_, ?_, ?_⟩
    · intro r' _
      simp [validateAndStart, validate_api_key, hp]
    · intro e he
      simp at he
    · intro k2 probe2 h2
      simp [validateAndStart, validate_api_key, hp, h2]
  | error e =>
    refine ⟨by simp [validateAndStart, validate_api_key, hp], ?_, ?_, ?_⟩
    · intro r hr
      simp at hr
    · intro e' he
      injection he with h
      subst h
      simp [validateAndStart, validate_api_key, hp, hlock, hmod]
    · intro k2 probe2 h2
      simp [validateAndStart, validate_api_key, hp, h2]

theorem validate_probe_once_witness :
    (validateAndStart initialState (str "k")
        (fun _ _ => Except.ok (str "Hi"))).2 = [(str "k", str "Hello")] ∧
    (∀ r : Str, (Except.ok (str "Hi") : Except Str Str) = Except.ok r →
      (validateAndStart initialState (str "k")
        (fun _ _ => Except.ok (str "Hi"))).1.model ≠ none ∧
      (validateAndStart initialState (str "k")
        (fun _ _ => Except.ok (str "Hi"))).1.api_key_valid = true) ∧
    (∀ e : Str, (Except.ok (str "Hi") : Except Str Str) = Except.error e →
      (validate_api_key (str "k") (fun _ _ => Except.ok (str "Hi"))).1 = Except.error e ∧
      (validateAndStart initialState (str "k")
        (fun _ _ => Except.ok (str "Hi"))).1.api_key_valid = false ∧
      (validateAndStart initialState (str "k")
        (fun _ _ => Except.ok (str "Hi"))).1.model = none) ∧
    (∀ (k2 : Str) (probe2 : Str → Str → Except Str Str),
      probe2 k2 (str "Hello") = (Except.ok (str "Hi") : Except Str Str) →
      (validateAndStart initialState k2 probe2).1.api_key_valid =
        (validateAndStart initialState (str "k")
          (fun _ _ => Except.ok (str "Hi"))).1.api_key_valid) :=
  validate_probe_once initialState (str "k") (fun _ _ => Except.ok (str "Hi")) rfl rfl

/-- C6: switching to a persona different from the active one empties the
message log and discards the chat session, and the first render after the
switch (with a stored model) leaves the log holding exactly the new
persona's greeting; likewise for a switch through a recommendation. -/
theorem persona_switch_clears_log (st : SessionState) (key : PKey) (m : Model)
    (age_group concern : Str) (mood : Nat)
    (hne : key ≠ st.personality) (hm : st.model = some m)
    (hrec : recommend age_group concern ≠ st.personality) :
    (selectPersonality st key).messages = [] ∧
    (selectPersonality st key).chat_session = none ∧
    (renderChat (selectPersonality st key)).messages =
      [⟨str "assistant", greeting (PERSONALITIES key)⟩] ∧
    (getRecommendation st age_group concern mood).messages = [] ∧
    (getRecommendation st age_group concern mood).chat_session = none ∧
    (renderChat (getRecommendation st age_group concern mood)).messages =
      [⟨str "assistant", greeting (PERSONALITIES (recommend age_group concern))⟩] := by
  refine ⟨?_, ?_, ?_, ?_, ?_, ?_⟩ <;>
    simp [selectPersonality, getRecommendation, renderChat, init_chat_session,
      hne, hrec, hm]

theorem persona_switch_clears_log_witness :
    (selectPersonality
        { initialState with api_key_valid := true, model := some ⟨str "k"⟩ }
        PKey.bridge).messages = [] ∧
    (selectPersonality
        { initialState with api_key_valid := true, model := some ⟨str "k"⟩ }
        PKey.bridge).chat_session = none ∧
    (renderChat (selectPersonality
        { initialState with api_key_valid := true, model := some ⟨str "k"⟩ }
        PKey.bridge)).messages =
      [⟨str "assistant", greeting (PERSONALITIES PKey.bridge)⟩] ∧
    (getRecommendation
        { initialState with api_key_valid := true, model := some ⟨str "k"⟩ }
        (str "Parent/Guardian") (str "Parenting") 5).messages = [] ∧
    (getRecommendation
        { initialState with api_key_valid := true, model := some ⟨str "k"⟩ }
        (str "Parent/Guardian") (str "Parenting") 5).chat_session = none ∧
    (renderChat (getRecommendation
        { initialState with api_key_valid := true, model := some ⟨str "k"⟩ }
        (str "Parent/Guardian") (str "Parenting") 5)).messages =
      [⟨str "assistant",
        greeting (PERSONALITIES (recommend (str "Parent/Guardian") (str "Parenting")))⟩] :=
  persona_switch_clears_log
    { initialState with api_key_valid := true, model := some ⟨str "k"⟩ }
    PKey.bridge ⟨str "k"⟩ (str "Parent/Guardian") (str "Parenting") 5
    (by decide) rfl (by decide)

/-- The state invariant of the spec: a stored provider handle implies the
credential has been marked valid. -/
def StateInv (st : SessionState) : Prop :=
  st.model ≠ none → st.api_key_valid = true

/-- C8: the invariant that the model handle is non-none only when
api_key_valid is true holds initially and is preserved by credential
validation (success or failure), persona switch, recommendation switch,
clear chat, change of credential, the greeting render and a chat turn. -/
theorem model_inv_preserved (st : SessionState) (api_key prompt : Str)
    (probe : Str → Str → Except Str Str)
    (provider : List GMessage → Except Str Str)
    (key : PKey) (age_group concern : Str) (mood : Nat)
    (h : StateInv st) :
    StateInv initialState ∧
    StateInv (validateAndStart st api_key probe).1 ∧
    StateInv (selectPersonality st key) ∧
    StateInv (getRecommendation st age_group concern mood) ∧
    StateInv (clearChat st) ∧
    StateInv (changeApiKey st) ∧
    StateInv (renderChat st) ∧
    StateInv (handleChat st prompt provider).1 := by
  refine ⟨fun hm => absurd rfl hm, ?_, ?_, ?_, h, fun hm => absurd rfl hm, ?_, ?_⟩
  · unfold validateAndStart validate_api_key
    cases probe api_key (str "Hello") with
    | error e => exact h
    | ok r => exact fun _ => rfl
  · unfold selectPersonality
    split
    · exact h
    · exact h
  · unfold getRecommendation
    dsimp only
    split
    · exact h
    · exact h
  · unfold renderChat init_chat_session
    cases st.chat_session with
    | some cs => exact h
    | none =>
      cases hm : st.model with
      | none => exact h
      | some m => exact fun _ => h (by simp [hm])
  · unfold handleChat
    cases check_crisis_keywords prompt with
    | true => exact h
    | false =>
      cases st.chat_session with
      | none => exact h
      | some cs =>
        dsimp only
        cases provider (cs.history ++
          [⟨str "user", context_prompt (PERSONALITIES st.personality) prompt⟩]) with
        | error e => exact h
        | ok t => exact h

theorem model_inv_preserved_witness :
    StateInv initialState ∧
    StateInv (validateAndStart initialState (str "k")
      (fun _ _ => Except.ok (str "Hi"))).1 ∧
    StateInv (selectPersonality initialState PKey.spark) ∧
    StateInv (getRecommendation initialState (str "Other") (str "Parenting") 5) ∧
    StateInv (clearChat initialState) ∧
    StateInv (changeApiKey initialState) ∧
    StateInv (renderChat initialState) ∧
    StateInv (handleChat initialState (str "hi")
      (fun _ => Except.ok (str "ok"))).1 :=
  model_inv_preserved initialState (str "k") (str "hi")
    (fun _ _ => Except.ok (str "Hi")) (fun _ => Except.ok (str "ok"))
    PKey.spark (str "Other") (str "Parenting") 5 (by simp [StateInv, initialState])

/-- Concatenation of the text parts of a request, in sending order. -/
def flatParts (l : List GMessage) : Str :=
  l.foldr (fun m acc => m.parts ++ acc) []

theorem flatParts_append (xs ys : List GMessage) :
    flatParts (xs ++ ys) = flatParts xs ++ flatParts ys := by
  induction xs with
  | nil => rfl
  | cons x xs ih =>
    show x.parts ++ flatParts (xs ++ ys) = x.parts ++ flatParts xs ++ flatParts ys
    rw [ih, List.append_assoc]

/-- C7: on a non-flagged turn the single request sent to the provider is the
session's full prior history followed by the wrapped user message; that
message is the persona's role framing, then the raw user text, then the
persona's system prompt after Remember; and in the request's concatenated
text the persona's system prompt (seeded into the history) precedes the raw
user text. -/
theorem normal_turn_request_shape (st : SessionState) (prompt : Str)
    (cs : ChatSession) (rest : List GMessage)
    (provider : List GMessage → Except Str Str)
    (hflag : check_crisis_keywords prompt = false)
    (hcs : st.chat_session = some cs)
    (hseed : cs.history = seedHistory (PERSONALITIES st.personality) ++ rest) :
    (handleChat st prompt provider).2 =
      [cs.history ++
        [⟨str "user", context_prompt (PERSONALITIES st.personality) prompt⟩]] ∧
    context_prompt (PERSONALITIES st.personality) prompt =
      str "As " ++ (PERSONALITIES st.personality).name ++ str ", a " ++
        (PERSONALITIES st.personality).role ++ str ", respond to: " ++ prompt ++
        str "\n                    \n                    Remember: " ++
        (PERSONALITIES st.personality).prompt ∧
    ∃ a b c : Str,
      flatParts (cs.history ++
          [⟨str "user", context_prompt (PERSONALITIES st.personality) prompt⟩]) =
        a ++ (PERSONALITIES st.personality).prompt ++ b ++ prompt ++ c := by
  refine ⟨?_, rfl, ?_⟩
  · simp only [handleChat, hflag, Bool.false_eq_true, if_false, hcs]
    split
    · rfl
    · rfl
  · rw [hseed, flatParts_append, flatParts_append]
    refine ⟨str "Hello, I need help with family wellness and development.",
      str "\n\n" ++ greeting (PERSONALITIES st.personality) ++ flatParts rest ++
        (str "As " ++ (PERSONALITIES st.personality).name ++ str ", a " ++
          (PERSONALITIES st.personality).role ++ str ", respond to: "),
      str "\n                    \n                    Remember: " ++
        (PERSONALITIES st.personality).prompt, ?_⟩
    simp [flatParts, seedHistory, context_prompt, List.append_assoc]

theorem normal_turn_request_shape_witness :
    (handleChat
        { initialState with
            api_key_valid := true, model := some ⟨str "k"⟩,
            chat_session := some ⟨seedHistory (PERSONALITIES PKey.sage)⟩ }
        (str "hi") (fun _ => Except.ok (str "ok"))).2 =
      [(⟨seedHistory (PERSONALITIES PKey.sage)⟩ : ChatSession).history ++
        [⟨str "user", context_prompt (PERSONALITIES PKey.sage) (str "hi")⟩]] ∧
    context_prompt (PERSONALITIES PKey.sage) (str "hi") =
      str "As " ++ (PERSONALITIES PKey.sage).name ++ str ", a " ++
        (PERSONALITIES PKey.sage).role ++ str ", respond to: " ++ str "hi" ++
        str "\n                    \n                    Remember: " ++
        (PERSONALITIES PKey.sage).prompt ∧
    ∃ a b c : Str,
      flatParts ((⟨seedHistory (PERSONALITIES PKey.sage)⟩ : ChatSession).history ++
          [⟨str "user", context_prompt (PERSONALITIES PKey.sage) (str "hi")⟩]) =
        a ++ (PERSONALITIES PKey.sage).prompt ++ b ++ str "hi" ++ c :=
  normal_turn_request_shape
    { initialState with
        api_key_valid := true, model := some ⟨str "k"⟩,
        chat_session := some ⟨seedHistory (PERSONALITIES PKey.sage)⟩ }
    (str "hi") ⟨seedHistory (PERSONALITIES PKey.sage)⟩ []
    (fun _ => Except.ok (str "ok")) (by decide) rfl (List.append_nil _).symm

end FamilyWellness
